import Mathlib

/-!
# TrenchBroom: `Polyhedron<T,FP>`, `GameImpl` and `Preferences`

`common/src/Polyhedron.h` declares the half-edge mesh (`Vertex`, `Edge`, `HalfEdge`, `Face`,
the containers `m_vertices`, `m_edges`, `m_faces`, `m_bounds`) and the signatures of its
operations; the bodies of the operations live in headers that are not among the sources,
except for the friend function `swap`, which the header defines. The data model below
follows the declarations; every operation whose body is missing is written from the prose
specification and marked `Modelled from the spec:`.

Representation. The scalar type `T` is instantiated with exact rationals. A vertex is
identified with its position, a face with the counter clockwise list of the origins of its
boundary half-edges, and an edge with the origins of its first and second half-edge; the
half-edges themselves are the arcs between consecutive boundary positions.

Tolerance. The default tolerance of the plane tests, `Math::Constants<T>::pointStatusEpsilon()`
(Polyhedron.h, line 197), is not among the sources; every operation that tests a point
against a plane takes the tolerance `epsilon` as a parameter.

`src/Model/GameImpl.cpp` and `src/Preferences.cpp` are embedded from their source text. The
classes and helpers they use that are not among the sources (`IO::Path`, `Map`, `Entity`,
`GameConfig`, `StringUtils`, the map writers) are reduced to the operations that the two
files call and taken as parameters.
-/

namespace TrenchBroom

/-- Scalar type `T` of `Polyhedron<T,FP>`. -/
abbrev T := ℚ

/-- Type `Vec<T,3>` (typedef `V` in `Polyhedron`). -/
structure V where
  x : T
  y : T
  z : T
deriving DecidableEq, Repr

namespace V

/-- Modelled from the spec: vector difference of `Vec<T,3>` (VecMath.h is not among the
sources). -/
def sub (a b : V) : V := ⟨a.x - b.x, a.y - b.y, a.z - b.z⟩

/-- Modelled from the spec: vector sum of `Vec<T,3>` (VecMath.h is not among the
sources). -/
def add (a b : V) : V := ⟨a.x + b.x, a.y + b.y, a.z + b.z⟩

/-- Modelled from the spec: product of a `Vec<T,3>` with a scalar (VecMath.h is not among
the sources). -/
def scale (a : V) (t : T) : V := ⟨a.x * t, a.y * t, a.z * t⟩

/-- Modelled from the spec: dot product of `Vec<T,3>` (VecMath.h is not among the
sources). -/
def dot (a b : V) : T := a.x * b.x + a.y * b.y + a.z * b.z

/-- Modelled from the spec: cross product of `Vec<T,3>` (VecMath.h is not among the
sources). -/
def cross (a b : V) : V :=
  ⟨a.y * b.z - a.z * b.y, a.z * b.x - a.x * b.z, a.x * b.y - a.y * b.x⟩

/-- Modelled from the spec: the null vector of `Vec<T,3>` (VecMath.h is not among the
sources). -/
def null : V := ⟨0, 0, 0⟩

end V

/-- Enumeration `Math::PointStatus::Type`, the result type of `Face::pointStatus`. -/
inductive PointStatus where
  | above
  | below
  | inside
deriving DecidableEq, Repr

/-- Type `Plane<T,3>`: the points `p` with `normal · p = distance`, where `normal` is a unit
vector. -/
structure Plane where
  normal : V
  distance : T
deriving DecidableEq, Repr

/-- Modelled from the spec: `Plane<T,3>::pointStatus` (VecMath.h is not among the sources),
the side-of-plane test with a tolerance: a point further than `epsilon` along the normal is
above (outside), further than `epsilon` against it is below, and otherwise on the plane; for
the unit normal of a plane `normal · point - distance` is the signed distance. -/
def Plane.pointStatus (plane : Plane) (point : V) (epsilon : T) : PointStatus :=
  if epsilon < plane.normal.dot point - plane.distance then PointStatus.above
  else if plane.normal.dot point - plane.distance < -epsilon then PointStatus.below
  else PointStatus.inside

/-- Class `Polyhedron::Face`: the boundary `m_boundary`, held as the origins of its
half-edges in counter clockwise order (the payload pointer is not represented). -/
structure Face where
  boundary : List V
deriving DecidableEq, Repr

/-- Class `Polyhedron::Edge`: the origins of the first and of the second half-edge. -/
structure Edge where
  first : V
  second : V
deriving DecidableEq, Repr

/-- Type `BBox<T,3>`. -/
structure BBox where
  min : V
  max : V
deriving DecidableEq, Repr

/-- Class `Polyhedron`: the members `m_vertices`, `m_edges`, `m_faces`, `m_bounds`. -/
structure Polyhedron where
  vertices : List V
  edges : List Edge
  faces : List Face
  bounds : BBox
deriving DecidableEq, Repr

/-- A half-edge of a face, as the pair of its origin and its destination. -/
abbrev Arc := V × V

namespace Face

/-- Modelled from the spec: `Face::vertexCount` (declared, body not among the sources): the
number of boundary half-edges. -/
def vertexCount (f : Face) : Nat := f.boundary.length

/-- Modelled from the spec: the boundary of a face is a closed cycle of half-edges: every
boundary position with its successor, the last one with the first. -/
def halfEdges (f : Face) : List Arc :=
  match f.boundary with
  | [] => []
  | v :: vs => (v :: vs).zip (vs ++ [v])

/-- Modelled from the spec: helper of the half-edge model: whether the half-edge from `a`
to `b` belongs to the boundary of the face. -/
def hasHalfEdge (f : Face) (a b : V) : Bool := decide ((a, b) ∈ f.halfEdges)

/-- Modelled from the spec: `Face::normal` (body not among the sources), up to its length:
the cross product of the two boundary edges at the first position, which points along the
normal of the face. The unit normal is this vector divided by its length, which need not be
rational; `pointStatus` and `coplanar` therefore use the vector together with its squared
length and give the results that the unit normal gives. -/
def normal (f : Face) : V :=
  match f.boundary with
  | a :: b :: c :: _ => (b.sub a).cross (c.sub a)
  | _ => V.null

/-- Modelled from the spec: helper of `Face::pointStatus`: whether `s` exceeds `epsilon`
times the length of a vector whose squared length is `lengthSq`, decided by comparing
squares. -/
def exceeds (s epsilon lengthSq : T) : Bool :=
  if 0 ≤ epsilon then decide (0 < s ∧ epsilon * epsilon * lengthSq < s * s)
  else decide (0 ≤ s ∨ s * s < epsilon * epsilon * lengthSq)

/-- Modelled from the spec: `Face::pointStatus(point, epsilon)` (declared, body not among
the sources): the side of the face plane on which the point lies, by its signed distance
from the plane: above when the distance along the normal exceeds `epsilon`, below when the
distance against it does, and otherwise on the plane. With the normal `n` of `Face.normal`
and the first boundary position `a` the signed distance is `n · (point - a)` over the length
of `n`. -/
def pointStatus (f : Face) (point : V) (epsilon : T) : PointStatus :=
  match f.boundary with
  | a :: _ =>
    if exceeds (f.normal.dot (point.sub a)) epsilon (f.normal.dot f.normal) then
      PointStatus.above
    else if exceeds (-(f.normal.dot (point.sub a))) epsilon (f.normal.dot f.normal) then
      PointStatus.below
    else PointStatus.inside
  | [] => PointStatus.inside

/-- Modelled from the spec: `Face::visibleFrom` (declared, body not among the sources): a
face is visible from a point when its plane classifies the point as outside (above); a point
on the plane does not see the face. -/
def visibleFrom (f : Face) (point : V) (epsilon : T) : Bool :=
  decide (f.pointStatus point epsilon = PointStatus.above)

/-- Modelled from the spec: `Face::coplanar` (declared, body not among the sources): two
faces are coplanar when they face the same way and every boundary position of the second
lies on the plane of the first. -/
def coplanar (f g : Face) (epsilon : T) : Bool :=
  decide (0 < f.normal.dot g.normal) &&
    g.boundary.all (fun v => decide (f.pointStatus v epsilon = PointStatus.inside))

/-- Modelled from the spec: helper of the face merge: two faces are adjacent when a
half-edge of the first has its twin on the second. -/
def adjacent (f g : Face) : Bool :=
  f.halfEdges.any (fun e => g.hasHalfEdge e.2 e.1)

end Face

/-- Modelled from the spec: helper of `createSeam`, which walks boundary half-edges: follows
a set of half-edges head to tail from `cur` until the position `start` is reached again;
`fuel` bounds the number of steps by the number of half-edges. -/
def chainFrom : Nat → List Arc → V → V → List Arc
  | 0, _, _, _ => []
  | fuel + 1, arcs, start, cur =>
    match arcs.find? (fun e => decide (e.1 = cur)) with
    | none => []
    | some e =>
      if e.2 = start then [e] else e :: chainFrom fuel (arcs.erase e) start e.2

/-- Modelled from the spec: helper of `createSeam`: orders a set of half-edges into the
closed loop that starts with its first member. -/
def orderLoop (arcs : List Arc) : List Arc :=
  match arcs with
  | [] => []
  | e :: rest => if e.2 = e.1 then [e] else e :: chainFrom rest.length rest e.1 e.2

namespace Polyhedron

/-- Modelled from the spec: `Polyhedron::vertexCount` (declared, body not among the
sources): the number of vertices in `m_vertices`. -/
def vertexCount (P : Polyhedron) : Nat := P.vertices.length

/-- Modelled from the spec: `Polyhedron::faceCount` (declared, body not among the
sources): the number of faces in `m_faces`. -/
def faceCount (P : Polyhedron) : Nat := P.faces.length

/-- Modelled from the spec: `Polyhedron::empty` (body not among the sources), the first
class of the progression empty, point, segment, polygon, solid. -/
def empty (P : Polyhedron) : Bool := P.vertexCount == 0

/-- Modelled from the spec: `Polyhedron::point` (body not among the sources): a single
vertex. -/
def point (P : Polyhedron) : Bool := P.vertexCount == 1

/-- Modelled from the spec: `Polyhedron::edge` (body not among the sources): a segment,
two vertices joined by one edge. -/
def edge (P : Polyhedron) : Bool := P.vertexCount == 2

/-- Modelled from the spec: `Polyhedron::polygon` (body not among the sources): a flat
polygon, which the spec holds as two opposite-facing faces sharing all edges. -/
def polygon (P : Polyhedron) : Bool := P.faceCount == 2

/-- Modelled from the spec: helper of `updateBounds`: the bounding box of a list of
positions, grown from the box of its first member. -/
def boundsOf : List V → BBox
  | [] => ⟨V.null, V.null⟩
  | v :: vs =>
    vs.foldl
      (fun b p =>
        ⟨⟨min b.min.x p.x, min b.min.y p.y, min b.min.z p.z⟩,
         ⟨max b.max.x p.x, max b.max.y p.y, max b.max.z p.z⟩⟩)
      ⟨v, v⟩

/-- Modelled from the spec: `Polyhedron::updateBounds` (body not among the sources): the
cached bounding box is recomputed from the current vertex set. -/
def updateBounds (P : Polyhedron) : Polyhedron :=
  { P with bounds := boundsOf P.vertices }

/-- Modelled from the spec: the default constructor `Polyhedron()` (declared, body not
among the sources): the empty polytope. -/
def nil : Polyhedron := ⟨[], [], [], ⟨V.null, V.null⟩⟩

/-! ## Convex hull construction (`addPoint`, `addPoints`) -/

/-- Modelled from the spec: the test of `addThirdPoint` whether the new position is
colinear with the two positions of the segment (exact, by the cross product). -/
def colinear (a b p : V) : Bool := decide ((b.sub a).cross (p.sub a) = V.null)

/-- Modelled from the spec: class `Seam` (declared, not defined among the sources): an
ordered, closed loop of half-edges separating two regions of the mesh. The half-edges are
those on the retained side. -/
abbrev Seam := List Arc

/-- Modelled from the spec: helper of `split`: whether a position is the origin of a
boundary half-edge of one of the faces. -/
def usedBy (faces : List Face) (v : V) : Bool := faces.any (fun f => decide (v ∈ f.boundary))

/-- Modelled from the spec: helper of `split`: whether one of the two half-edges of an edge
lies on the boundary of one of the faces. -/
def borderedBy (faces : List Face) (e : Edge) : Bool :=
  faces.any (fun f => f.hasHalfEdge e.first e.second || f.hasHalfEdge e.second e.first)

/-- Modelled from the spec: `addFirstPoint` (body not among the sources): adding the first
point creates a lone vertex. -/
def addFirstPoint (P : Polyhedron) (position : V) : Polyhedron :=
  { P with vertices := [position] }

/-- Modelled from the spec: `addSecondPoint` (body not among the sources): adding the
second point creates the second vertex and the edge joining the two. -/
def addSecondPoint (P : Polyhedron) (position : V) : Polyhedron :=
  match P.vertices with
  | a :: _ => { P with vertices := [a, position], edges := [⟨a, position⟩] }
  | [] => P

/-- Modelled from the spec: `addPointToEdge` (body not among the sources): a third point
colinear with the segment simply extends the segment, replacing the end it lies beyond. -/
def addPointToEdge (P : Polyhedron) (position : V) : Polyhedron :=
  match P.vertices with
  | a :: b :: _ =>
    if (position.sub a).dot (b.sub a) < 0 then
      { P with vertices := [position, b], edges := [⟨position, b⟩] }
    else if (b.sub a).dot (b.sub a) < (position.sub a).dot (b.sub a) then
      { P with vertices := [a, position], edges := [⟨a, position⟩] }
    else P
  | _ => P

/-- Modelled from the spec: `addThirdPoint` (body not among the sources): a third point
colinear with the first two extends the segment; otherwise it creates the first triangular
face pair, front and back, two opposite-facing triangles sharing all three edges. -/
def addThirdPoint (P : Polyhedron) (position : V) : Polyhedron :=
  match P.vertices with
  | a :: b :: _ =>
    if colinear a b position then addPointToEdge P position
    else
      { P with
        vertices := [a, b, position]
        edges := [⟨a, b⟩, ⟨b, position⟩, ⟨position, a⟩]
        faces := [⟨[a, b, position]⟩, ⟨[position, b, a]⟩] }
  | _ => P

/-- Modelled from the spec: `createSeam` for a splitting criterion (body not among the
sources): the separating loop between the faces the criterion selects for deletion and the
retained ones, made of the half-edges of retained faces whose twin lies on a selected face,
in loop order. -/
def createSeam (P : Polyhedron) (criterion : Face → Bool) : Seam :=
  orderLoop
    (((P.faces.filter (fun f => !criterion f)).map Face.halfEdges).flatten.filter
      (fun e => (P.faces.filter criterion).any (fun f => f.hasHalfEdge e.2 e.1)))

/-- Modelled from the spec: `split` along a seam (body not among the sources): the faces on
the far side of the seam, those the criterion of the seam selects, are deleted with the
vertices and edges that only they used. -/
def split (P : Polyhedron) (criterion : Face → Bool) : Polyhedron :=
  { P with
    vertices := P.vertices.filter (usedBy (P.faces.filter (fun f => !criterion f)))
    edges := P.edges.filter (borderedBy (P.faces.filter (fun f => !criterion f)))
    faces := P.faces.filter (fun f => !criterion f) }

/-- Modelled from the spec: `weaveCap(seam, position)` with `createCapTriangle` (bodies not
among the sources): a fan of new triangular faces connects the seam to the new vertex; each
triangle takes the place of the twin of one seam half-edge. -/
def weaveCap (P : Polyhedron) (seam : Seam) (position : V) : Polyhedron :=
  { P with
    vertices := P.vertices ++ [position]
    edges := P.edges ++ seam.map (fun e => ⟨e.1, position⟩)
    faces := P.faces ++ seam.map (fun e => ⟨[e.2, e.1, position]⟩) }

/-- Modelled from the spec: helper of the face merge: the boundary of the fusion of two
adjacent faces, their half-edges without the shared ones, in loop order. -/
def mergedBoundary (f g : Face) : List V :=
  (orderLoop
    (f.halfEdges.filter (fun e => !g.hasHalfEdge e.2 e.1) ++
      g.halfEdges.filter (fun e => !f.hasHalfEdge e.2 e.1))).map Prod.fst

/-- Modelled from the spec: helper of the face merge: the first face after `f` in the list
that is adjacent to and coplanar with `f`. -/
def findCoplanarNeighbour (f : Face) (rest : List Face) (epsilon : T) : Option Face :=
  rest.find? (fun g => f.adjacent g && f.coplanar g epsilon)

/-- Modelled from the spec: helper of the face merge: the first pair of adjacent coplanar
faces of a list of faces. -/
def findCoplanarPair : List Face → T → Option (Face × Face)
  | [], _ => none
  | f :: rest, epsilon =>
    match findCoplanarNeighbour f rest epsilon with
    | some g => some (f, g)
    | none => findCoplanarPair rest epsilon

/-- Modelled from the spec: the merge of newly coplanar adjacent faces after weaving a cap
(`mergeNeighbours`, body not among the sources): while two adjacent faces are coplanar they
are fused into one face, and the edges and vertices between them are removed. `fuel`
bounds the number of fusions by the number of faces. -/
def mergeCoplanarFaces : Nat → Polyhedron → T → Polyhedron
  | 0, P, _ => P
  | fuel + 1, P, epsilon =>
    match findCoplanarPair P.faces epsilon with
    | none => P
    | some (f, g) =>
      mergeCoplanarFaces fuel
        { P with
          vertices := P.vertices.filter
            (usedBy ((P.faces.erase g).map (fun h => if h = f then ⟨mergedBoundary f g⟩ else h)))
          edges := P.edges.filter
            (borderedBy ((P.faces.erase g).map (fun h => if h = f then ⟨mergedBoundary f g⟩ else h)))
          faces := (P.faces.erase g).map (fun h => if h = f then ⟨mergedBoundary f g⟩ else h) }
        epsilon

/-- Modelled from the spec: `addPointToPolyhedron(position, seam)` (body not among the
sources): the faces that see the new point are deleted, the cap is woven onto the seam and
newly coplanar neighbours are merged. -/
def addPointToPolyhedron (P : Polyhedron) (position : V) (seam : Seam) (epsilon : T) :
    Polyhedron :=
  mergeCoplanarFaces (P.faceCount + seam.length)
    (weaveCap (split P (fun f => f.visibleFrom position epsilon)) seam position) epsilon

/-- Modelled from the spec: `addFurtherPointToPolyhedron` (body not among the sources): the
seam between the faces whose plane classifies the point as outside and the others is
computed; a point that no face sees adds no geometry. -/
def addFurtherPointToPolyhedron (P : Polyhedron) (position : V) (epsilon : T) : Polyhedron :=
  match createSeam P (fun f => f.visibleFrom position epsilon) with
  | [] => P
  | e :: seam => addPointToPolyhedron P position (e :: seam) epsilon

/-- Modelled from the spec: `makePolyhedron` (body not among the sources): a point off the
plane of the polygon promotes it to a solid by the seam and visibility algorithm: the face
of the pair that sees the point is replaced by the fan of triangles from the new vertex. -/
def makePolyhedron (P : Polyhedron) (position : V) (epsilon : T) : Polyhedron :=
  addPointToPolyhedron P position (createSeam P (fun f => f.visibleFrom position epsilon))
    epsilon

/-- Modelled from the spec: `addFurtherPointToPolygon` (body not among the sources): a
point off the plane of the polygon makes it a solid. The spec gives no rule for a point on
the plane of the polygon (`addPointToPolygon`), so that operation is a parameter. -/
def addFurtherPointToPolygon (addPointToPolygon : Polyhedron → V → Polyhedron)
    (P : Polyhedron) (position : V) (epsilon : T) : Polyhedron :=
  match P.faces with
  | f :: _ =>
    if f.pointStatus position epsilon = PointStatus.inside then addPointToPolygon P position
    else makePolyhedron P position epsilon
  | [] => P

/-- Modelled from the spec: `addFurtherPoint` (body not among the sources): the fourth and
later points go to the polygon or to the solid. -/
def addFurtherPoint (addPointToPolygon : Polyhedron → V → Polyhedron)
    (P : Polyhedron) (position : V) (epsilon : T) : Polyhedron :=
  if P.polygon then addFurtherPointToPolygon addPointToPolygon P position epsilon
  else addFurtherPointToPolyhedron P position epsilon

/-- Modelled from the spec: `addPoint` (body not among the sources): the hull is built
point by point along the progression empty, point, segment, polygon, solid, and the cached
bounds follow the vertices. -/
def addPoint (addPointToPolygon : Polyhedron → V → Polyhedron)
    (P : Polyhedron) (position : V) (epsilon : T) : Polyhedron :=
  updateBounds
    (if P.empty then addFirstPoint P position
     else if P.point then addSecondPoint P position
     else if P.edge then addThirdPoint P position
     else addFurtherPoint addPointToPolygon P position epsilon)

/-- Modelled from the spec: `addPoints(cur, end)` (body not among the sources): the points
of the range are added one by one. -/
def addPoints (addPointToPolygon : Polyhedron → V → Polyhedron)
    (P : Polyhedron) (positions : List V) (epsilon : T) : Polyhedron :=
  positions.foldl (fun Q p => addPoint addPointToPolygon Q p epsilon) P

/-- Modelled from the spec: the constructor `Polyhedron(p1, p2, p3, p4)` with its helper
`addPoints(p1, p2, p3, p4, callback)` (bodies not among the sources): the hull of the four
points is built incrementally from the empty polytope. -/
def ofPoints (addPointToPolygon : Polyhedron → V → Polyhedron)
    (p1 p2 p3 p4 : V) (epsilon : T) : Polyhedron :=
  addPoints addPointToPolygon nil [p1, p2, p3, p4] epsilon

end Polyhedron

/-! ## Clipping (`clip`) -/

/-- Struct `Polyhedron::ClipResult`: the enumeration `ClipResult::Type` of its member
`type`. -/
inductive ClipResult where
  | Type_ClipUnchanged
  | Type_ClipEmpty
  | Type_ClipSuccess
deriving DecidableEq, Repr

/-- Modelled from the spec: `ClipResult::unchanged` (declared, body not among the
sources). -/
def ClipResult.unchanged (r : ClipResult) : Bool := decide (r = ClipResult.Type_ClipUnchanged)

/-- Modelled from the spec: `ClipResult::empty` (declared, body not among the sources). -/
def ClipResult.empty (r : ClipResult) : Bool := decide (r = ClipResult.Type_ClipEmpty)

/-- Modelled from the spec: `ClipResult::success` (declared, body not among the
sources). -/
def ClipResult.success (r : ClipResult) : Bool := decide (r = ClipResult.Type_ClipSuccess)

/-- Modelled from the spec: the point at which the segment from `a` to `b` meets the plane
(VecMath.h is not among the sources): the exact intersection point, not truncated. -/
def Plane.intersect (plane : Plane) (a b : V) : V :=
  a.add ((b.sub a).scale
    ((plane.distance - plane.normal.dot a) / plane.normal.dot (b.sub a)))

/-- Modelled from the spec: `Edge::split(plane)` (body not among the sources): the position
of the vertex inserted where the edge crosses the plane. -/
def Edge.split (e : Edge) (plane : Plane) : V := plane.intersect e.first e.second

namespace Polyhedron

/-- Modelled from the spec: `checkIntersects` (body not among the sources): every vertex is
classified against the plane; the polytope is unchanged when no vertex is on the discarded
side (above), clipped away when no vertex is on the retained side (below), and split when
there is a mix. -/
def checkIntersects (P : Polyhedron) (plane : Plane) (epsilon : T) : ClipResult :=
  if (P.vertices.filter
      (fun v => decide (plane.pointStatus v epsilon = PointStatus.above))).length = 0 then
    ClipResult.Type_ClipUnchanged
  else if (P.vertices.filter
      (fun v => decide (plane.pointStatus v epsilon = PointStatus.below))).length = 0 then
    ClipResult.Type_ClipEmpty
  else ClipResult.Type_ClipSuccess

end Polyhedron

/-! ## `swap` (`Polyhedron.h`, lines 254-259) -/

namespace Polyhedron

/-- The friend function `swap(first, second)` of `Polyhedron.h`, lines 254-259: it exchanges
`m_vertices`, `m_edges` and `m_faces` of the two polyhedra and touches no other member. The
result is the pair of `first` and `second` as they are when the call returns. -/
def swap (first second : Polyhedron) : Polyhedron × Polyhedron :=
  ({ first with
      vertices := second.vertices
      edges := second.edges
      faces := second.faces },
   { second with
      vertices := first.vertices
      edges := first.edges
      faces := first.faces })

end Polyhedron

/-! ## Preferences (`Preferences.cpp`) -/

/-- Type `Color` as `Preferences.cpp` constructs it: red, green, blue and alpha. Every
component the file writes is `0.0f` or `1.0f`. -/
structure Color where
  r : ℚ
  g : ℚ
  b : ℚ
  a : ℚ
deriving DecidableEq, Repr

/-- Type `Preference<T>` as `Preferences.cpp` constructs it, from the path it is stored
under and its default value (the class template is not among the sources). -/
structure Preference (α : Type) where
  path : String
  defaultValue : α
deriving DecidableEq, Repr

namespace Preferences

/-- `Preferences::BackgroundColor` (Preferences.cpp, line 24). -/
def BackgroundColor : Preference Color := ⟨"Colors/Background", ⟨0, 0, 0, 1⟩⟩

/-- `Preferences::XAxisColor` (Preferences.cpp, line 25). -/
def XAxisColor : Preference Color := ⟨"Colors/Background", ⟨1, 0, 0, 1⟩⟩

/-- `Preferences::YAxisColor` (Preferences.cpp, line 26). -/
def YAxisColor : Preference Color := ⟨"Colors/Background", ⟨0, 1, 0, 1⟩⟩

/-- `Preferences::ZAxisColor` (Preferences.cpp, line 27). -/
def ZAxisColor : Preference Color := ⟨"Colors/Background", ⟨0, 0, 1, 1⟩⟩

end Preferences

/-! ## `GameImpl` (`Model/GameImpl.cpp`) -/

namespace Model

/-- The exceptions that the functions of `GameImpl.cpp` raise or pass on: `GameException`
(Exceptions.h), `std::out_of_range` of `std::string::substr`, and whatever a collaborator
raises. -/
inductive Exception where
  | GameException (message : String)
  | out_of_range
  | other (message : String)
deriving DecidableEq, Repr

/-- Modelled from the spec: `StringUtils::isPrefix(str, prefix)` (StringUtils.h is not among
the sources): whether the string starts with the given characters. -/
def isPrefix (str start : String) : Bool := start.data.isPrefixOf str.data

/-- The standard `std::string::substr(pos)`: the characters from position `pos` on; it
raises `std::out_of_range` when `pos` exceeds the length. -/
def substr (str : String) (pos : Nat) : Except Exception String :=
  if pos ≤ str.data.length then Except.ok ⟨str.data.drop pos⟩ else Except.error Exception.out_of_range

/-- The class `Entity` as far as `GameImpl.cpp` uses it: `property(key)`, the value stored
under a key (the class is not among the sources). -/
structure Entity where
  property : String → String

/-- The type `MapFormat::Type`, whose declaration is not among the sources: a value of it
is one of the four constants that the switch of `GameImpl::mapWriter` names, or any other
value, here `other` with its number. -/
inductive MapFormat where
  | Quake
  | Quake2
  | Hexen2
  | Valve
  | other (value : Nat)
deriving DecidableEq, Repr

/-- The class `Map` as far as `GameImpl.cpp` uses it: `worldspawn()`, which is null when the
map has none, and `format()` (the class is not among the sources). -/
structure Map where
  worldspawn : Option Entity
  format : MapFormat

/-- The collaborators of `GameImpl.cpp` that are not among the sources, taken as
parameters: the operations of `IO::Path` (the constructor from a string, `isAbsolute`,
`operator+`), `IO::SystemPaths::resourceDirectory()`, the property key
`PropertyKeys::EntityDefinitions`, and `StringUtils::split` and `StringUtils::trim`. -/
structure Externals (Path : Type) where
  path : String → Path
  isAbsolute : Path → Bool
  join : Path → Path → Path
  resourceDirectory : Path
  EntityDefinitions : String
  split : String → Char → List String
  trim : String → String

/-- The class `GameConfig` as far as `GameImpl.cpp` uses it (not among the sources):
`textureConfig().property`, `entityConfig().defFilePath` and `findConfigFile`. -/
structure GameConfig (Path : Type) where
  textureProperty : String
  defFilePath : Path
  findConfigFile : Path → Path

/-- The class `GameImpl`: its member `m_config`. -/
structure GameImpl (Path : Type) where
  m_config : GameConfig Path

namespace GameImpl

variable {Path : Type}

/-- `GameImpl::doExtractTexturePaths` (GameImpl.cpp, lines 122-148). -/
def doExtractTexturePaths (game : GameImpl Path) (ext : Externals Path) (map : Map) :
    List Path :=
  if game.m_config.textureProperty = "" then []
  else
    match map.worldspawn with
    | none => []
    | some worldspawn =>
      if worldspawn.property game.m_config.textureProperty = "" then []
      else
        (ext.split (worldspawn.property game.m_config.textureProperty) ';').foldl
          (fun paths it =>
            if ext.trim it = "" then paths else paths ++ [ext.path (ext.trim it)])
          []

/-- `GameImpl::doDefaultEntityDefinitionFile` (GameImpl.cpp, lines 176-178). -/
def doDefaultEntityDefinitionFile (game : GameImpl Path) : Path :=
  game.m_config.findConfigFile game.m_config.defFilePath

/-- `Game::defaultEntityDefinitionFile`, the public entry of the base class (not among the
sources) through which line 183 reaches `doDefaultEntityDefinitionFile`. -/
def defaultEntityDefinitionFile (game : GameImpl Path) : Path :=
  game.doDefaultEntityDefinitionFile

/-- `GameImpl::doExtractEntityDefinitionFile` (GameImpl.cpp, lines 180-198). -/
def doExtractEntityDefinitionFile (game : GameImpl Path) (ext : Externals Path) (map : Map) :
    Except Exception Path :=
  match map.worldspawn with
  | none => Except.ok game.defaultEntityDefinitionFile
  | some worldspawn =>
    if worldspawn.property ext.EntityDefinitions = "" then
      Except.ok game.defaultEntityDefinitionFile
    else if isPrefix (worldspawn.property ext.EntityDefinitions) "external:" then
      (substr (worldspawn.property ext.EntityDefinitions) 9).map ext.path
    else if isPrefix (worldspawn.property ext.EntityDefinitions) "builtin:" then
      (substr (worldspawn.property ext.EntityDefinitions) 8).map
        (fun s => ext.join ext.resourceDirectory (ext.path s))
    else if ext.isAbsolute (ext.path (worldspawn.property ext.EntityDefinitions)) then
      Except.ok (ext.path (worldspawn.property ext.EntityDefinitions))
    else
      Except.ok
        (ext.join ext.resourceDirectory (ext.path (worldspawn.property ext.EntityDefinitions)))

end GameImpl

/-- The map writers that `GameImpl::mapWriter` creates: `IO::QuakeMapWriter`,
`IO::Quake2MapWriter` and `IO::Hexen2MapWriter`. -/
inductive MapWriter where
  | QuakeMapWriter
  | Quake2MapWriter
  | Hexen2MapWriter
deriving DecidableEq, Repr

/-- The methods of `IO::MapWriter` that `GameImpl.cpp` calls (the class is not among the
sources), taken as parameters. Each acts on the state of what it writes to, the files
(`Files`) or the stream (`Stream`), and may raise an exception. -/
structure MapWriterMethods (Path Files Stream ObjectList BrushFaceList : Type) where
  writeToFileAtPath : MapWriter → Map → Path → Bool → Files → Except Exception Unit × Files
  writeObjectsToStream : MapWriter → ObjectList → Stream → Except Exception Unit × Stream
  writeFacesToStream : MapWriter → BrushFaceList → Stream → Except Exception Unit × Stream

namespace GameImpl

variable {Path Files Stream ObjectList BrushFaceList : Type}

/-- `GameImpl::mapWriter` (GameImpl.cpp, lines 220-232). The switch returns a writer under
the labels `Quake`, `Quake2` and `Hexen2`; the label `Valve` breaks out of the switch and a
value without a label passes it, and both reach the `throw` that stands after the switch. -/
def mapWriter (format : MapFormat) : Except Exception MapWriter :=
  match format with
  | MapFormat.Quake => Except.ok MapWriter.QuakeMapWriter
  | MapFormat.Quake2 => Except.ok MapWriter.Quake2MapWriter
  | MapFormat.Hexen2 => Except.ok MapWriter.Hexen2MapWriter
  | MapFormat.Valve =>
    Except.error (Exception.GameException "Map format is not supported for writing")
  | MapFormat.other _ =>
    Except.error (Exception.GameException "Map format is not supported for writing")

/-- `GameImpl::doWriteMap` (GameImpl.cpp, lines 103-105). -/
def doWriteMap (methods : MapWriterMethods Path Files Stream ObjectList BrushFaceList)
    (map : Map) (path : Path) (files : Files) : Except Exception Unit × Files :=
  match mapWriter map.format with
  | Except.error e => (Except.error e, files)
  | Except.ok writer => methods.writeToFileAtPath writer map path true files

/-- `GameImpl::doWriteObjectsToStream` (GameImpl.cpp, lines 107-109). -/
def doWriteObjectsToStream (methods : MapWriterMethods Path Files Stream ObjectList BrushFaceList)
    (format : MapFormat) (objects : ObjectList) (stream : Stream) :
    Except Exception Unit × Stream :=
  match mapWriter format with
  | Except.error e => (Except.error e, stream)
  | Except.ok writer => methods.writeObjectsToStream writer objects stream

/-- `GameImpl::doWriteFacesToStream` (GameImpl.cpp, lines 111-113). -/
def doWriteFacesToStream (methods : MapWriterMethods Path Files Stream ObjectList BrushFaceList)
    (format : MapFormat) (faces : BrushFaceList) (stream : Stream) :
    Except Exception Unit × Stream :=
  match mapWriter format with
  | Except.error e => (Except.error e, stream)
  | Except.ok writer => methods.writeFacesToStream writer faces stream

end GameImpl

end Model

/-! ## Inputs of the statements

The definitions of this section are not part of the program: they name the inputs that the
statements below quantify over. -/

/-- Six times the signed volume of the tetrahedron `a b c d`: positive when `d` lies on the
side of the plane through `a`, `b`, `c` to which the normal `(b - a) × (c - a)` points, and
zero exactly when the four points are coplanar. -/
def orient (a b c d : V) : T := ((b.sub a).cross (c.sub a)).dot (d.sub a)

/-- The point `d` lies further than `epsilon` from the plane through `a`, `b`, `c`. The
distance is `|orient a b c d|` over the length of the normal `(b - a) × (c - a)`; the two
sides are compared through their squares. At `epsilon = 0` this says that `d` is not on the
plane. -/
def offPlane (a b c d : V) (epsilon : T) : Prop :=
  epsilon * epsilon * ((b.sub a).cross (c.sub a)).dot ((b.sub a).cross (c.sub a)) <
    orient a b c d * orient a b c d

/-- Whether a point lies further than `epsilon` from a plane is decidable. -/
instance offPlane.decidable (a b c d : V) (epsilon : T) :
    Decidable (offPlane a b c d epsilon) :=
  inferInstanceAs (Decidable (_ < _))

/-- Four points are non-coplanar beyond the tolerance `epsilon`: each of them lies further
than `epsilon` from the plane through the other three. At `epsilon = 0` this says that the
four points are not coplanar. -/
def nonCoplanar (p1 p2 p3 p4 : V) (epsilon : T) : Prop :=
  offPlane p2 p3 p4 p1 epsilon ∧ offPlane p1 p3 p4 p2 epsilon ∧
    offPlane p1 p2 p4 p3 epsilon ∧ offPlane p1 p2 p3 p4 epsilon

/-- Whether four points are non-coplanar beyond the tolerance is decidable. -/
instance nonCoplanar.decidable (p1 p2 p3 p4 : V) (epsilon : T) :
    Decidable (nonCoplanar p1 p2 p3 p4 epsilon) :=
  inferInstanceAs (Decidable (_ ∧ _ ∧ _ ∧ _))

/-- The mesh of the axis-aligned box with the opposite corners `lo` and `hi`: 8 vertices,
12 edges and 6 quadrilateral faces whose boundaries run counter clockwise seen from
outside. -/
def box (lo hi : V) : Polyhedron :=
  { vertices :=
      [⟨lo.x, lo.y, lo.z⟩, ⟨hi.x, lo.y, lo.z⟩, ⟨lo.x, hi.y, lo.z⟩, ⟨lo.x, lo.y, hi.z⟩,
       ⟨hi.x, hi.y, lo.z⟩, ⟨hi.x, lo.y, hi.z⟩, ⟨lo.x, hi.y, hi.z⟩, ⟨hi.x, hi.y, hi.z⟩]
    edges :=
      [⟨⟨lo.x, lo.y, lo.z⟩, ⟨hi.x, lo.y, lo.z⟩⟩, ⟨⟨lo.x, hi.y, lo.z⟩, ⟨lo.x, lo.y, lo.z⟩⟩,
       ⟨⟨lo.x, lo.y, lo.z⟩, ⟨lo.x, lo.y, hi.z⟩⟩, ⟨⟨lo.x, hi.y, lo.z⟩, ⟨hi.x, hi.y, lo.z⟩⟩,
       ⟨⟨hi.x, lo.y, lo.z⟩, ⟨hi.x, hi.y, lo.z⟩⟩, ⟨⟨hi.x, lo.y, lo.z⟩, ⟨hi.x, lo.y, hi.z⟩⟩,
       ⟨⟨lo.x, lo.y, hi.z⟩, ⟨hi.x, lo.y, hi.z⟩⟩, ⟨⟨lo.x, hi.y, lo.z⟩, ⟨lo.x, hi.y, hi.z⟩⟩,
       ⟨⟨lo.x, lo.y, hi.z⟩, ⟨lo.x, hi.y, hi.z⟩⟩, ⟨⟨hi.x, hi.y, lo.z⟩, ⟨hi.x, hi.y, hi.z⟩⟩,
       ⟨⟨hi.x, lo.y, hi.z⟩, ⟨hi.x, hi.y, hi.z⟩⟩, ⟨⟨lo.x, hi.y, hi.z⟩, ⟨hi.x, hi.y, hi.z⟩⟩]
    faces :=
      [⟨[⟨hi.x, lo.y, lo.z⟩, ⟨lo.x, lo.y, lo.z⟩, ⟨lo.x, hi.y, lo.z⟩, ⟨hi.x, hi.y, lo.z⟩]⟩,
       ⟨[⟨lo.x, lo.y, lo.z⟩, ⟨hi.x, lo.y, lo.z⟩, ⟨hi.x, lo.y, hi.z⟩, ⟨lo.x, lo.y, hi.z⟩]⟩,
       ⟨[⟨lo.x, hi.y, lo.z⟩, ⟨lo.x, lo.y, lo.z⟩, ⟨lo.x, lo.y, hi.z⟩, ⟨lo.x, hi.y, hi.z⟩]⟩,
       ⟨[⟨hi.x, lo.y, lo.z⟩, ⟨hi.x, hi.y, lo.z⟩, ⟨hi.x, hi.y, hi.z⟩, ⟨hi.x, lo.y, hi.z⟩]⟩,
       ⟨[⟨hi.x, hi.y, lo.z⟩, ⟨lo.x, hi.y, lo.z⟩, ⟨lo.x, hi.y, hi.z⟩, ⟨hi.x, hi.y, hi.z⟩]⟩,
       ⟨[⟨lo.x, lo.y, hi.z⟩, ⟨hi.x, lo.y, hi.z⟩, ⟨hi.x, hi.y, hi.z⟩, ⟨lo.x, hi.y, hi.z⟩]⟩]
    bounds := ⟨lo, hi⟩ }

/-- The mesh of the axis-aligned cube with the minimal corner `o` and the side `s`. -/
def cube (o : V) (s : T) : Polyhedron := box o ⟨o.x + s, o.y + s, o.z + s⟩

/-- A path type for the examples: a path is the string it is written as. -/
def examplePaths : Model.Externals String :=
  { path := fun s => s
    isAbsolute := fun p => p.data.head? == some '/'
    join := fun a b => a ++ "/" ++ b
    resourceDirectory := "/usr/share/trenchbroom"
    EntityDefinitions := "_def"
    split := fun s _ => [s]
    trim := fun s => s }

/-- A game for the examples: its textures are listed under the property `wad`. -/
def exampleGame : Model.GameImpl String :=
  { m_config :=
      { textureProperty := "wad"
        defFilePath := "quake.fgd"
        findConfigFile := fun p => "/usr/share/trenchbroom/quake/" ++ p } }

/-- A worldspawn for the examples: every property of it has the given value. -/
def exampleWorldspawn (value : String) : Model.Entity := { property := fun _ => value }

/-- A map for the examples: a Valve-format map whose worldspawn is `exampleWorldspawn`. -/
def exampleMap (value : String) : Model.Map :=
  { worldspawn := some (exampleWorldspawn value), format := Model.MapFormat.Valve }

/-- Map writer methods for the examples: files and streams are the list of the names of
the writers that wrote to them. -/
def exampleMethods : Model.MapWriterMethods String (List String) (List String) Unit Unit :=
  { writeToFileAtPath := fun _ _ path _ files => (Except.ok (), files ++ [path])
    writeObjectsToStream := fun _ _ stream => (Except.ok (), stream ++ ["objects"])
    writeFacesToStream := fun _ _ stream => (Except.ok (), stream ++ ["faces"]) }

open Polyhedron

/-! ## Lemmas on the orientation test and on triangular faces -/

/-- At the tolerance zero a point is off the plane exactly when the orientation test does
not vanish. -/
theorem offPlane_zero (a b c d : V) : offPlane a b c d 0 ↔ orient a b c d ≠ 0 := by
  unfold offPlane
  rw [zero_mul, zero_mul]
  exact mul_self_pos

/-- At the tolerance zero four points are non-coplanar beyond the tolerance exactly when
they are not coplanar. -/
theorem nonCoplanar_zero (p1 p2 p3 p4 : V) :
    nonCoplanar p1 p2 p3 p4 0 ↔ orient p1 p2 p3 p4 ≠ 0 := by
  have e1 : orient p2 p3 p4 p1 = - orient p1 p2 p3 p4 := by
    simp only [orient, V.dot, V.cross, V.sub]; ring
  have e2 : orient p1 p3 p4 p2 = orient p1 p2 p3 p4 := by
    simp only [orient, V.dot, V.cross, V.sub]; ring
  have e3 : orient p1 p2 p4 p3 = - orient p1 p2 p3 p4 := by
    simp only [orient, V.dot, V.cross, V.sub]; ring
  simp only [nonCoplanar, offPlane_zero, e1, e2, e3, neg_ne_zero, and_self]

/-- The side of a triangular face on which a point lies is read off the orientation test. -/
theorem pointStatus_triangle (a b c p : V) (ε : T) :
    Face.pointStatus ⟨[a, b, c]⟩ p ε =
      if Face.exceeds (orient a b c p) ε
          (((b.sub a).cross (c.sub a)).dot ((b.sub a).cross (c.sub a))) then PointStatus.above
      else if Face.exceeds (-(orient a b c p)) ε
          (((b.sub a).cross (c.sub a)).dot ((b.sub a).cross (c.sub a))) then PointStatus.below
      else PointStatus.inside := rfl

/-- A point within the tolerance of the plane of a triangle is classified as on the plane. -/
theorem pointStatus_triangle_inside (a b c p : V) (ε : T) (h0 : 0 ≤ ε)
    (h : ¬ offPlane a b c p ε) :
    Face.pointStatus ⟨[a, b, c]⟩ p ε = PointStatus.inside := by
  rw [pointStatus_triangle]
  unfold offPlane at h
  have h1 : Face.exceeds (orient a b c p) ε
      (((b.sub a).cross (c.sub a)).dot ((b.sub a).cross (c.sub a))) = false := by
    simp [Face.exceeds, h0, h]
  have h2 : Face.exceeds (-(orient a b c p)) ε
      (((b.sub a).cross (c.sub a)).dot ((b.sub a).cross (c.sub a))) = false := by
    simp only [Face.exceeds, if_pos h0, neg_mul_neg, decide_eq_false_iff_not, not_and]
    exact fun _ => h
  rw [h1, h2]; simp

/-- The first three points, when not colinear, make the triangular face pair. -/
theorem addPoints_three (f : Polyhedron → V → Polyhedron) (p1 p2 p3 : V) (ε : T)
    (h : (p2.sub p1).cross (p3.sub p1) ≠ V.null) :
    addPoints f nil [p1, p2, p3] ε =
      ⟨[p1, p2, p3], [⟨p1, p2⟩, ⟨p2, p3⟩, ⟨p3, p1⟩], [⟨[p1, p2, p3]⟩, ⟨[p3, p2, p1]⟩],
        boundsOf [p1, p2, p3]⟩ := by
  have hc : colinear p1 p2 p3 = false := by
    simp only [colinear, decide_eq_false_iff_not]; exact h
  simp [addPoints, addPoint, Polyhedron.empty, Polyhedron.point, Polyhedron.edge, vertexCount,
    nil, updateBounds, addFirstPoint, addSecondPoint, addThirdPoint, hc]

/-- The fourth point reaches the triangular face pair that the first three points make. -/
theorem ofPoints_step (f : Polyhedron → V → Polyhedron) (p1 p2 p3 p4 : V) (ε : T)
    (h : (p2.sub p1).cross (p3.sub p1) ≠ V.null) :
    ofPoints f p1 p2 p3 p4 ε =
      addPoint f ⟨[p1, p2, p3], [⟨p1, p2⟩, ⟨p2, p3⟩, ⟨p3, p1⟩],
        [⟨[p1, p2, p3]⟩, ⟨[p3, p2, p1]⟩], boundsOf [p1, p2, p3]⟩ p4 ε := by
  have hstep : ofPoints f p1 p2 p3 p4 ε =
      addPoint f (addPoints f nil [p1, p2, p3] ε) p4 ε := by
    simp [ofPoints, addPoints]
  rw [hstep, addPoints_three f p1 p2 p3 ε h]

/-- A fourth point within the tolerance of the plane through the first three is not made a
vertex of a solid: it is handed to the insertion into the polygon. -/
theorem ofPoints_within_tolerance (f : Polyhedron → V → Polyhedron) (p1 p2 p3 p4 : V) (ε : T)
    (h0 : 0 ≤ ε) (hcol : (p2.sub p1).cross (p3.sub p1) ≠ V.null)
    (h : ¬ offPlane p1 p2 p3 p4 ε) :
    ofPoints f p1 p2 p3 p4 ε =
      updateBounds (f ⟨[p1, p2, p3], [⟨p1, p2⟩, ⟨p2, p3⟩, ⟨p3, p1⟩],
        [⟨[p1, p2, p3]⟩, ⟨[p3, p2, p1]⟩], boundsOf [p1, p2, p3]⟩ p4) := by
  rw [ofPoints_step f p1 p2 p3 p4 ε hcol]
  have hin : Face.pointStatus ⟨[p1, p2, p3]⟩ p4 ε = PointStatus.inside :=
    pointStatus_triangle_inside _ _ _ _ _ h0 h
  simp [addPoint, Polyhedron.empty, Polyhedron.point, Polyhedron.edge, vertexCount,
    addFurtherPoint, polygon, faceCount, addFurtherPointToPolygon, hin]

/-- That the fourth point lies off the plane of the first three beyond the tolerance does
not suffice for a tetrahedron: at the tolerance `1/2` the points `(6,1,1/10)`, `(0,0,0)`,
`(10,0,0)`, `(0,10,0)` have the fourth point further than `1/2` from the plane through the
first three, yet the third lies within `1/2` of the plane through the first, second and
fourth, and the merge of coplanar neighbours fuses two of the four triangles. -/
theorem ofPoints_shallow_tetrahedron :
    offPlane ⟨6, 1, 1 / 10⟩ ⟨0, 0, 0⟩ ⟨10, 0, 0⟩ ⟨0, 10, 0⟩ (1 / 2) ∧
    ¬ offPlane ⟨6, 1, 1 / 10⟩ ⟨0, 0, 0⟩ ⟨0, 10, 0⟩ ⟨10, 0, 0⟩ (1 / 2) ∧
    (ofPoints (fun P _ => P) ⟨6, 1, 1 / 10⟩ ⟨0, 0, 0⟩ ⟨10, 0, 0⟩ ⟨0, 10, 0⟩ (1 / 2)).faceCount
      = 3 := by
  with_unfolding_all decide

/-! ## C2: the polyhedron built from four points -/

/-- The vertex classification answers unchanged when no vertex is above the plane. -/
theorem checkIntersects_unchanged (P : Polyhedron) (plane : Plane) (ε : T)
    (h : ∀ v ∈ P.vertices, plane.pointStatus v ε ≠ PointStatus.above) :
    P.checkIntersects plane ε = ClipResult.Type_ClipUnchanged := by
  have hf : P.vertices.filter
      (fun v => decide (plane.pointStatus v ε = PointStatus.above)) = [] := by
    rw [List.filter_eq_nil_iff]
    intro v hv
    simpa using h v hv
  simp [checkIntersects, hf]

/-- The vertex classification answers empty when some vertex is above the plane and none is
below. -/
theorem checkIntersects_empty (P : Polyhedron) (plane : Plane) (ε : T)
    (ha : ∃ v ∈ P.vertices, plane.pointStatus v ε = PointStatus.above)
    (hb : ∀ v ∈ P.vertices, plane.pointStatus v ε ≠ PointStatus.below) :
    P.checkIntersects plane ε = ClipResult.Type_ClipEmpty := by
  obtain ⟨a, ha, hsa⟩ := ha
  have hf : P.vertices.filter
      (fun v => decide (plane.pointStatus v ε = PointStatus.below)) = [] := by
    rw [List.filter_eq_nil_iff]
    intro v hv
    simpa using hb v hv
  have hn : (P.vertices.filter
      (fun v => decide (plane.pointStatus v ε = PointStatus.above))).length ≠ 0 := by
    intro h0
    have hmem : a ∈ P.vertices.filter
        (fun v => decide (plane.pointStatus v ε = PointStatus.above)) :=
      List.mem_filter.mpr ⟨ha, by simpa using hsa⟩
    rw [List.length_eq_zero.mp h0] at hmem
    exact List.not_mem_nil _ hmem
  simp [checkIntersects, hf, hn]

/-- The vertex classification answers success only when a vertex lies on each side. -/
theorem checkIntersects_success (P : Polyhedron) (plane : Plane) (ε : T)
    (h : P.checkIntersects plane ε = ClipResult.Type_ClipSuccess) :
    (∃ v ∈ P.vertices, plane.pointStatus v ε = PointStatus.above) ∧
    (∃ v ∈ P.vertices, plane.pointStatus v ε = PointStatus.below) := by
  unfold checkIntersects at h
  split_ifs at h with h1 h2
  constructor
  · obtain ⟨v, hv⟩ := List.exists_mem_of_length_pos (Nat.pos_of_ne_zero h1)
    rw [List.mem_filter] at hv
    exact ⟨v, hv.1, by simpa using hv.2⟩
  · obtain ⟨v, hv⟩ := List.exists_mem_of_length_pos (Nat.pos_of_ne_zero h2)
    rw [List.mem_filter] at hv
    exact ⟨v, hv.1, by simpa using hv.2⟩

/-! ## C6: clipping a cube through its centre

The six lemmas below evaluate `clip` on an axis-aligned box for a plane that is normal to
one axis and passes strictly between the two faces of the box on that axis, once for each
axis and each side that is retained. -/

/-- The mesh that the hull construction builds from the corners of the unit cube is the
mesh `cube` of the statements. -/
theorem addPoints_unit_cube :
    addPoints (fun P _ => P) nil
        [⟨0, 0, 0⟩, ⟨1, 0, 0⟩, ⟨0, 1, 0⟩, ⟨0, 0, 1⟩, ⟨1, 1, 0⟩, ⟨1, 0, 1⟩, ⟨0, 1, 1⟩, ⟨1, 1, 1⟩] 0 =
      cube ⟨0, 0, 0⟩ 1 := by
  with_unfolding_all decide

/-- C13 fails on the code: `swap` exchanges the vertices, edges and faces of two cubes whose
bounds are the bounding boxes of their vertices, and leaves each with its own old bounds,
which are no longer the bounding box of the vertices it holds. -/
theorem swap_leaves_bounds_stale :
    (cube ⟨0, 0, 0⟩ 1).bounds = boundsOf (cube ⟨0, 0, 0⟩ 1).vertices ∧
    (cube ⟨2, 2, 2⟩ 1).bounds = boundsOf (cube ⟨2, 2, 2⟩ 1).vertices ∧
    (swap (cube ⟨0, 0, 0⟩ 1) (cube ⟨2, 2, 2⟩ 1)).1.vertices = (cube ⟨2, 2, 2⟩ 1).vertices ∧
    (swap (cube ⟨0, 0, 0⟩ 1) (cube ⟨2, 2, 2⟩ 1)).1.bounds = (cube ⟨0, 0, 0⟩ 1).bounds ∧
    (swap (cube ⟨0, 0, 0⟩ 1) (cube ⟨2, 2, 2⟩ 1)).1.bounds ≠
      boundsOf (swap (cube ⟨0, 0, 0⟩ 1) (cube ⟨2, 2, 2⟩ 1)).1.vertices ∧
    (swap (cube ⟨0, 0, 0⟩ 1) (cube ⟨2, 2, 2⟩ 1)).2.bounds ≠
      boundsOf (swap (cube ⟨0, 0, 0⟩ 1) (cube ⟨2, 2, 2⟩ 1)).2.vertices := by
  with_unfolding_all decide

/-- For all polyhedra, `swap` leaves the cached bounds of both where they were. -/
theorem swap_bounds (first second : Polyhedron) :
    (swap first second).1.bounds = first.bounds ∧
    (swap first second).2.bounds = second.bounds ∧
    (swap first second).1.vertices = second.vertices ∧
    (swap first second).2.vertices = first.vertices :=
  ⟨rfl, rfl, rfl, rfl⟩

/-! ## C14: the paths of the colour preferences -/

/-- C14 fails on the code: the four colour preferences are all declared under the one path
`Colors/Background`. -/
theorem colour_preferences_share_one_path :
    Preferences.BackgroundColor.path = "Colors/Background" ∧
    Preferences.XAxisColor.path = Preferences.BackgroundColor.path ∧
    Preferences.YAxisColor.path = Preferences.BackgroundColor.path ∧
    Preferences.ZAxisColor.path = Preferences.BackgroundColor.path := by
  decide

/-! ## C15, C16, C17: `GameImpl` -/

namespace Model

open GameImpl

/-- A string has the given start exactly when it is the start followed by a rest. -/
theorem isPrefix_eq_true_iff (str start : String) :
    isPrefix str start = true ↔ ∃ rest : String, str = start ++ rest := by
  unfold isPrefix
  rw [List.isPrefixOf_iff_prefix]
  constructor
  · rintro ⟨t, ht⟩
    refine ⟨⟨t⟩, ?_⟩
    apply String.ext
    rw [String.data_append, ← ht]
  · rintro ⟨rest, rfl⟩
    exact ⟨rest.data, by rw [String.data_append]⟩

/-- Cutting as many characters as the start has off the start followed by a rest leaves the
rest, and does not raise. -/
theorem substr_append (start rest : String) (n : Nat) (hn : start.data.length = n) :
    substr (start ++ rest) n = Except.ok rest := by
  unfold substr
  have hd : (start ++ rest).data = start.data ++ rest.data := String.data_append _ _
  rw [hd, if_pos (by rw [List.length_append, hn]; exact Nat.le_add_right _ _)]
  congr 1
  apply String.ext
  show List.drop n (start.data ++ rest.data) = rest.data
  rw [← hn, List.drop_left]

/-- The literal `external:` has 9 characters, the argument of `substr` on line 190. -/
theorem external_length : "external:".data.length = 9 := by decide

/-- The literal `builtin:` has 8 characters, the argument of `substr` on line 192. -/
theorem builtin_length : "builtin:".data.length = 8 := by decide

/-- A value that starts with `builtin:` does not start with `external:`. -/
theorem builtin_not_external (rest : String) :
    isPrefix ("builtin:" ++ rest) "external:" = false := by
  simp [isPrefix, String.data_append, List.isPrefixOf]

/-- A string with a non-empty start is not empty. -/
theorem append_ne_empty (start rest : String) (h : start.data ≠ []) : start ++ rest ≠ "" := by
  intro e
  have := congrArg String.data e
  rw [String.data_append] at this
  exact h (List.append_eq_nil.mp this).1

/-- C15. `doExtractEntityDefinitionFile` resolves the entity-definition value `v` of the
worldspawn by cases: without a worldspawn, or with an empty `v`, it returns the default
entity definition file; when `v` is `external:` followed by a rest it returns the path of
exactly that rest; when `v` is `builtin:` followed by a rest it returns the resource
directory joined with the path of exactly that rest; otherwise it returns the path of `v`
itself when that path is absolute and the resource directory joined with it when it is
relative. In no case does it raise. -/
theorem doExtractEntityDefinitionFile_cases {Path : Type} (game : GameImpl Path)
    (ext : Externals Path) (map : Map) :
    (map.worldspawn = none →
      game.doExtractEntityDefinitionFile ext map = Except.ok game.doDefaultEntityDefinitionFile) ∧
    (∀ w, map.worldspawn = some w → w.property ext.EntityDefinitions = "" →
      game.doExtractEntityDefinitionFile ext map = Except.ok game.doDefaultEntityDefinitionFile) ∧
    (∀ w rest, map.worldspawn = some w →
      w.property ext.EntityDefinitions = "external:" ++ rest →
      game.doExtractEntityDefinitionFile ext map = Except.ok (ext.path rest)) ∧
    (∀ w rest, map.worldspawn = some w →
      w.property ext.EntityDefinitions = "builtin:" ++ rest →
      game.doExtractEntityDefinitionFile ext map =
        Except.ok (ext.join ext.resourceDirectory (ext.path rest))) ∧
    (∀ w, map.worldspawn = some w → w.property ext.EntityDefinitions ≠ "" →
      (∀ rest, w.property ext.EntityDefinitions ≠ "external:" ++ rest) →
      (∀ rest, w.property ext.EntityDefinitions ≠ "builtin:" ++ rest) →
      game.doExtractEntityDefinitionFile ext map =
        Except.ok
          (if ext.isAbsolute (ext.path (w.property ext.EntityDefinitions)) = true then
            ext.path (w.property ext.EntityDefinitions)
          else ext.join ext.resourceDirectory (ext.path (w.property ext.EntityDefinitions)))) := by
  refine ⟨?_, ?_, ?_, ?_, ?_⟩
  · intro hw
    simp [doExtractEntityDefinitionFile, hw, defaultEntityDefinitionFile]
  · intro w hw hv
    simp [doExtractEntityDefinitionFile, hw, hv, defaultEntityDefinitionFile]
  · intro w rest hw hv
    have hne : "external:" ++ rest ≠ "" := append_ne_empty _ _ (by decide)
    have hp : isPrefix ("external:" ++ rest) "external:" = true :=
      (isPrefix_eq_true_iff _ _).mpr ⟨rest, rfl⟩
    simp only [doExtractEntityDefinitionFile, hw, hv, if_neg hne, hp, if_true,
      substr_append _ rest 9 external_length]
    rfl
  · intro w rest hw hv
    have hne : "builtin:" ++ rest ≠ "" := append_ne_empty _ _ (by decide)
    have hp : isPrefix ("builtin:" ++ rest) "builtin:" = true :=
      (isPrefix_eq_true_iff _ _).mpr ⟨rest, rfl⟩
    simp only [doExtractEntityDefinitionFile, hw, hv, if_neg hne, hp, if_true,
      builtin_not_external, substr_append _ rest 8 builtin_length]
    rfl
  · intro w hw hne he hb
    have hpe : isPrefix (w.property ext.EntityDefinitions) "external:" = false := by
      rw [Bool.eq_false_iff]
      intro h
      obtain ⟨rest, hr⟩ := (isPrefix_eq_true_iff _ _).mp h
      exact he rest hr
    have hpb : isPrefix (w.property ext.EntityDefinitions) "builtin:" = false := by
      rw [Bool.eq_false_iff]
      intro h
      obtain ⟨rest, hr⟩ := (isPrefix_eq_true_iff _ _).mp h
      exact hb rest hr
    simp only [doExtractEntityDefinitionFile, hw, if_neg hne, hpe, hpb]
    by_cases ha : ext.isAbsolute (ext.path (w.property ext.EntityDefinitions)) = true
    · simp [ha]
    · simp [ha]

/-- The loop of `doExtractTexturePaths` appends, in order, the paths of the pieces whose
trimmed text is not empty. -/
theorem foldl_push_trimmed {Path : Type} (ext : Externals Path) (pieces : List String)
    (paths : List Path) :
    pieces.foldl
        (fun paths it => if ext.trim it = "" then paths else paths ++ [ext.path (ext.trim it)])
        paths =
      paths ++ ((pieces.map ext.trim).filter (fun s => decide (s ≠ ""))).map ext.path := by
  induction pieces generalizing paths with
  | nil => simp
  | cons it rest ih =>
    rw [List.foldl_cons, ih]
    by_cases h : ext.trim it = ""
    · simp [h]
    · simp [h]

/-- C16. `doExtractTexturePaths` returns the empty list when the configured property name is
empty, when the map has no worldspawn and when the property value is empty; otherwise it
returns, in their original order, exactly the paths of the trimmed pieces of the value split
at `;` whose trimmed text is not empty, so that no returned path comes from an empty piece
or from one that trimming empties. -/
theorem doExtractTexturePaths_eq {Path : Type} (game : GameImpl Path) (ext : Externals Path)
    (map : Map) :
    (game.m_config.textureProperty = "" → game.doExtractTexturePaths ext map = []) ∧
    (map.worldspawn = none → game.doExtractTexturePaths ext map = []) ∧
    (∀ w, map.worldspawn = some w → w.property game.m_config.textureProperty = "" →
      game.doExtractTexturePaths ext map = []) ∧
    (∀ w, game.m_config.textureProperty ≠ "" → map.worldspawn = some w →
      w.property game.m_config.textureProperty ≠ "" →
      game.doExtractTexturePaths ext map =
        (((ext.split (w.property game.m_config.textureProperty) ';').map ext.trim).filter
          (fun s => decide (s ≠ ""))).map ext.path) := by
  refine ⟨?_, ?_, ?_, ?_⟩
  · intro h
    simp [doExtractTexturePaths, h]
  · intro h
    simp [doExtractTexturePaths, h]
  · intro w hw hv
    simp [doExtractTexturePaths, hw, hv]
  · intro w hp hw hv
    simp only [doExtractTexturePaths, if_neg hp, hw, if_neg hv]
    rw [foldl_push_trimmed, List.nil_append]

/-- C17, as the claim states it, fails at a value of `MapFormat::Type` other than the four
that the switch names: `mapWriter` raises `GameException` for it, and it is not
`MapFormat::Valve`. -/
theorem mapWriter_raises_beyond_Valve :
    (∃ message, mapWriter (MapFormat.other 0) =
      Except.error (Exception.GameException message)) ∧
    MapFormat.other 0 ≠ MapFormat.Valve :=
  ⟨⟨"Map format is not supported for writing", rfl⟩, by decide⟩

/-- C17, amended. `mapWriter(format)` returns the writer of that format for Quake, Quake2 and
Hexen2 and raises `GameException` for every other value of the format, `MapFormat::Valve`
among them; it raises if and only if the format is none of Quake, Quake2 and Hexen2. Hence
`doWriteMap`, `doWriteObjectsToStream` and `doWriteFacesToStream` raise `GameException` for
a Valve-format map and leave the files and the stream as they were. -/
theorem mapWriter_cases {Path Files Stream ObjectList BrushFaceList : Type}
    (methods : MapWriterMethods Path Files Stream ObjectList BrushFaceList) :
    (∀ format, (∃ message, mapWriter format = Except.error (Exception.GameException message)) ↔
      (format ≠ MapFormat.Quake ∧ format ≠ MapFormat.Quake2 ∧ format ≠ MapFormat.Hexen2)) ∧
    (∀ format, format ≠ MapFormat.Quake → format ≠ MapFormat.Quake2 →
      format ≠ MapFormat.Hexen2 →
      mapWriter format =
        Except.error (Exception.GameException "Map format is not supported for writing")) ∧
    mapWriter MapFormat.Valve =
      Except.error (Exception.GameException "Map format is not supported for writing") ∧
    mapWriter MapFormat.Quake = Except.ok MapWriter.QuakeMapWriter ∧
    mapWriter MapFormat.Quake2 = Except.ok MapWriter.Quake2MapWriter ∧
    mapWriter MapFormat.Hexen2 = Except.ok MapWriter.Hexen2MapWriter ∧
    (∀ (map : Map) (path : Path) (files : Files), map.format = MapFormat.Valve →
      doWriteMap methods map path files =
        (Except.error (Exception.GameException "Map format is not supported for writing"),
          files)) ∧
    (∀ (objects : ObjectList) (stream : Stream),
      doWriteObjectsToStream methods MapFormat.Valve objects stream =
        (Except.error (Exception.GameException "Map format is not supported for writing"),
          stream)) ∧
    (∀ (faces : BrushFaceList) (stream : Stream),
      doWriteFacesToStream methods MapFormat.Valve faces stream =
        (Except.error (Exception.GameException "Map format is not supported for writing"),
          stream)) := by
  refine ⟨?_, ?_, rfl, rfl, rfl, rfl, ?_, ?_, ?_⟩
  · intro format
    cases format <;> simp [mapWriter]
  · intro format h1 h2 h3
    cases format <;> simp_all [mapWriter]
  · intro map path files h
    simp [doWriteMap, h, mapWriter]
  · intro objects stream
    simp [doWriteObjectsToStream, mapWriter]
  · intro faces stream
    simp [doWriteFacesToStream, mapWriter]

/-- C15 at a worldspawn whose value is `external:` followed by `/maps/quake.fgd`. -/
theorem doExtractEntityDefinitionFile_cases_witness :
    exampleGame.doExtractEntityDefinitionFile examplePaths
        (exampleMap ("external:" ++ "/maps/quake.fgd")) =
      Except.ok "/maps/quake.fgd" :=
  (doExtractEntityDefinitionFile_cases exampleGame examplePaths
    (exampleMap ("external:" ++ "/maps/quake.fgd"))).2.2.1
      (exampleWorldspawn ("external:" ++ "/maps/quake.fgd")) "/maps/quake.fgd" rfl rfl

/-- C16 at a worldspawn whose texture value is `a.wad`. -/
theorem doExtractTexturePaths_eq_witness :
    exampleGame.m_config.textureProperty ≠ "" ∧
    (exampleWorldspawn "a.wad").property exampleGame.m_config.textureProperty ≠ "" ∧
    exampleGame.doExtractTexturePaths examplePaths (exampleMap "a.wad") =
      (((examplePaths.split
          ((exampleWorldspawn "a.wad").property exampleGame.m_config.textureProperty)
          ';').map examplePaths.trim).filter (fun s => decide (s ≠ ""))).map examplePaths.path :=
  ⟨by decide, by decide,
    (doExtractTexturePaths_eq exampleGame examplePaths (exampleMap "a.wad")).2.2.2
      (exampleWorldspawn "a.wad") (by decide) rfl (by decide)⟩

/-- C17 at a Valve-format map: writing it raises and leaves the files as they were. -/
theorem mapWriter_cases_witness :
    (exampleMap "a.wad").format = MapFormat.Valve ∧
    doWriteMap exampleMethods (exampleMap "a.wad") "out.map" ["kept.map"] =
      (Except.error (Exception.GameException "Map format is not supported for writing"),
        ["kept.map"]) :=
  ⟨rfl, (mapWriter_cases exampleMethods).2.2.2.2.2.2.1 (exampleMap "a.wad") "out.map"
    ["kept.map"] rfl⟩

end Model

end TrenchBroom
